import Mathlib

/-!
Shallow embedding of the Faculty Qualification Evaluation Engine of
`backend/routers/research.py` (functions `get_active_exemptions`,
`is_in_grace_period`, `calculate_qualification_status`, and the inline
evaluation logic of `get_faculty_overview` and `get_researcher_timeline`),
together with the data model of `backend/models/research.py` and
`backend/models/user.py`, restricted to the fields the engine reads.

Python `None`-able integer columns are modelled as `Option Int`; Python
truthiness of such a value (`if x:`) is `truthyInt`: both `None` and `0`
are falsy.  `x or d` on such a value is `Option.getD` when `d` is the
only falsy-replacement in play (both `None` and `0` map to `d` only when
`d = 0`; for the `REFERENCE_YEAR + 10` fallback we spell the truthiness
test out).  Dictionaries returned by the endpoints are modelled as
structures whose optional fields are `none` when the Python dict lacks
the key.
-/

namespace AACSB

/-- `FacultyCategory` enum of `backend/models/user.py`. -/
inductive FacultyCategory where
  | SA
  | PA
  | SP
  | IP
  | Other
deriving DecidableEq, Repr

/-- `ExemptionType` model (`backend/models/research.py`), engine-relevant
fields.  Nullable integer columns are `Option Int`. -/
structure ExemptionType where
  name : String
  reduces_ic_requirement : Bool
  reduces_prj_requirement : Bool
  reduces_activity_requirement : Bool
  grants_full_exemption : Bool
  ic_reduction : Int
  prj_reduction : Int
  activity_reduction : Int
  years_after_degree : Option Int
  grace_period_years : Option Int
deriving DecidableEq, Repr

/-- `UserExemption` model: a grant linking a user to an exemption type. -/
structure UserExemption where
  id : Int
  exemption_type : ExemptionType
  year_from : Int
  year_to : Option Int
deriving DecidableEq, Repr

/-- `User` model, engine-relevant fields.  `faculty_category` is nullable. -/
structure User where
  faculty_category : Option FacultyCategory
  degree_year : Option Int
  exemptions : List UserExemption
deriving DecidableEq, Repr

/-- Python truthiness of a nullable integer: `None` and `0` are falsy. -/
def truthyInt : Option Int → Bool
  | none => false
  | some n => n != 0

/-- `REFERENCE_YEAR = 2025` (module-level constant in
`backend/routers/research.py`, line 54). -/
def REFERENCE_YEAR : Int := 2025

/-- `get_active_exemptions(user, year_from, year_to)`: grants whose effective
interval (end extended by the grace period, missing end replaced by
`REFERENCE_YEAR + 10`) overlaps `[year_from, year_to]`.  The Python loop
appends in iteration order, i.e. it is a filter. -/
def get_active_exemptions (user : User) (year_from year_to : Int) :
    List UserExemption :=
  user.exemptions.filter fun exemption =>
    let exemption_end : Int :=
      if truthyInt exemption.year_to then exemption.year_to.getD 0
      else REFERENCE_YEAR + 10
    let grace_period : Int := exemption.exemption_type.grace_period_years.getD 0
    let effective_end : Int := exemption_end + grace_period
    decide (exemption.year_from ≤ year_to) && decide (effective_end ≥ year_from)

/-- `is_in_grace_period(exemption, reference_year)`. -/
def is_in_grace_period (exemption : UserExemption) (reference_year : Int) :
    Bool :=
  if !truthyInt exemption.year_to then false
  else
    let grace_period : Int := exemption.exemption_type.grace_period_years.getD 0
    if grace_period = 0 then false
    else
      let yt : Int := exemption.year_to.getD 0
      decide (yt < reference_year) && decide (reference_year ≤ yt + grace_period)

/-- The full-exemption search loop of `calculate_qualification_status`
(lines 496–521): first active exemption whose type grants a full exemption
and qualifies (degree-anchored, in grace period, or still serving) is
returned with its human-readable reason; `none` when the loop ends without
a `break`. -/
def find_full_exemption (user : User) (exemptions : List UserExemption)
    (reference_year : Int) : Option (ExemptionType × String) :=
  match exemptions with
  | [] => none
  | exemption :: rest =>
    let ex_type := exemption.exemption_type
    if ex_type.grants_full_exemption then
      if truthyInt ex_type.years_after_degree && truthyInt user.degree_year then
        let years_since_degree := reference_year - user.degree_year.getD 0
        if years_since_degree ≤ ex_type.years_after_degree.getD 0 then
          some (ex_type, ex_type.name ++ " (" ++ toString years_since_degree
            ++ " of " ++ toString (ex_type.years_after_degree.getD 0) ++ " years)")
        else find_full_exemption user rest reference_year
      else if !truthyInt ex_type.years_after_degree then
        if is_in_grace_period exemption reference_year then
          let years_in_grace := reference_year - exemption.year_to.getD 0
          some (ex_type, ex_type.name ++ " (grace period: year "
            ++ toString years_in_grace ++ " of "
            ++ toString (ex_type.grace_period_years.getD 0) ++ ")")
        else if !truthyInt exemption.year_to
            || decide (exemption.year_to.getD 0 ≥ reference_year) then
          some (ex_type, ex_type.name ++ " (currently serving)")
        else find_full_exemption user rest reference_year
      else find_full_exemption user rest reference_year
    else find_full_exemption user rest reference_year

/-- A contribution as seen by `calculate_qualification_status`: the caller
passes dicts and the function reads
`c.get("my_categorization", \x7b\x7d).get("publication_type")`; we model just
that nullable string. -/
structure Contribution where
  publication_type : Option String
deriving DecidableEq, Repr

/-- `ProfessionalActivity` model, engine-relevant field. -/
structure ProfessionalActivity where
  year : Int
deriving DecidableEq, Repr

/-- The `requirements` dict of `calculate_qualification_status`: optional
fields are `none` when the Python dict lacks the key. -/
structure Requirements where
  description : Option String := none
  exemption_applied : Bool := false
  total_ics_required : Option Int := none
  prj_required : Option Int := none
  base_ics_required : Option Int := none
  base_prj_required : Option Int := none
  activities_required : Option Int := none
  base_activities_required : Option Int := none
  exemptions_applied : Option (List String) := none
deriving DecidableEq, Repr

/-- The `current` dict of counts in the result. -/
structure CurrentCounts where
  prj_articles : Int
  peer_reviewed_other : Int
  other_ics : Int
  total_ics : Int
  professional_activities : Int
deriving DecidableEq, Repr

/-- One entry of the `exemptions` list in the result. -/
structure ExemptionInfo where
  id : Int
  type' : String
  year_from : Int
  year_to : Option Int
  in_grace_period : Bool
deriving DecidableEq, Repr

/-- The evaluated-result dict of `calculate_qualification_status`. -/
structure QualResult where
  category : FacultyCategory
  requirements : Requirements
  current : CurrentCounts
  requirements_met : Bool
  warnings : List String
  exemptions : List ExemptionInfo
deriving DecidableEq, Repr

/-- Result of `calculate_qualification_status`: either the early
`\x7b"status": "not_set", "message": ...\x7d` return (category falsy) or the
full evaluated dict. -/
inductive QualStatus where
  | not_set (message : String)
  | evaluated (result : QualResult)
deriving DecidableEq, Repr

/-- `requirements_met` of an evaluated result, `none` for the `not_set`
short-circuit. -/
def QualStatus.met? : QualStatus → Option Bool
  | QualStatus.not_set _ => none
  | QualStatus.evaluated r => some r.requirements_met

/-- `requirements` of an evaluated result, `none` for the `not_set`
short-circuit. -/
def QualStatus.requirements? : QualStatus → Option Requirements
  | QualStatus.not_set _ => none
  | QualStatus.evaluated r => some r.requirements

/-- `warnings` of an evaluated result, `none` for the `not_set`
short-circuit. -/
def QualStatus.warnings? : QualStatus → Option (List String)
  | QualStatus.not_set _ => none
  | QualStatus.evaluated r => some r.warnings

/-- One iteration of the reduction-aggregation loop of
`calculate_qualification_status` (lines 539–555): full-exemption types are
skipped entirely (`continue`), otherwise the Programme-Leader name check
and the three guarded reduction sums and the notes list are updated. -/
def aggregate_step (acc : Int × Int × Int × List String × Bool)
    (exemption : UserExemption) : Int × Int × Int × List String × Bool :=
  let ex_type := exemption.exemption_type
  if ex_type.grants_full_exemption then acc
  else
    (acc.1 + (if ex_type.reduces_ic_requirement then ex_type.ic_reduction else 0),
     acc.2.1 + (if ex_type.reduces_prj_requirement then ex_type.prj_reduction else 0),
     acc.2.2.1 + (if ex_type.reduces_activity_requirement then ex_type.activity_reduction else 0),
     acc.2.2.2.1 ++ [ex_type.name],
     acc.2.2.2.2 || (ex_type.name == "Programme Leader"))

/-- The whole reduction-aggregation loop:
`(total_ic_reduction, total_prj_reduction, total_activity_reduction,
exemption_notes, is_programme_leader)`. -/
def aggregate_reductions (exemptions : List UserExemption) :
    Int × Int × Int × List String × Bool :=
  exemptions.foldl aggregate_step (0, 0, 0, [], false)

/-- `prj_count` of `calculate_qualification_status` (line 524). -/
def prj_article_count (contributions : List Contribution) : Int :=
  ((contributions.filter fun c => c.publication_type == some "prj_article").length : Int)

/-- `peer_reviewed_count` of `calculate_qualification_status` (line 525). -/
def peer_reviewed_other_count (contributions : List Contribution) : Int :=
  ((contributions.filter fun c => c.publication_type == some "peer_reviewed_other").length : Int)

/-- `other_ic_count` of `calculate_qualification_status` (line 526). -/
def other_ic_count (contributions : List Contribution) : Int :=
  ((contributions.filter fun c => c.publication_type == some "other_ic").length : Int)

/-- `total_ics` of `calculate_qualification_status` (line 527). -/
def total_ics_count (contributions : List Contribution) : Int :=
  prj_article_count contributions + peer_reviewed_other_count contributions
    + other_ic_count contributions

/-- The `requirements` / `met` / `warnings` computation of
`calculate_qualification_status` (lines 557–633): the full-exemption
short-circuit followed by the per-category branch.  `met` starts `True`
and is cleared by each failing check; warnings accumulate in check
order. -/
def category_requirements (category : FacultyCategory)
    (full : Option (ExemptionType × String))
    (prj_count total_ics activity_count : Int)
    (total_ic_reduction total_prj_reduction total_activity_reduction : Int)
    (is_programme_leader : Bool) : Requirements × Bool × List String :=
  match full with
  | some (_, full_exemption_reason) =>
    (⟨some ("Full exemption: " ++ full_exemption_reason), true,
      none, none, none, none, none, none, none⟩, true, [])
  | none =>
    match category with
    | FacultyCategory.SA =>
      let ic_required := max 0 (6 - total_ic_reduction)
      let prj_required0 := max 0 (3 - total_prj_reduction)
      let prj_required :=
        if is_programme_leader then max 1 prj_required0 else prj_required0
      let w1 : List String :=
        if prj_count < prj_required then
          ["Need " ++ toString (prj_required - prj_count) ++ " more PRJ articles"]
        else []
      let w2 : List String :=
        if total_ics < ic_required then
          ["Need " ++ toString (ic_required - total_ics) ++ " more intellectual contributions"]
        else []
      (⟨some (toString ic_required ++ " ICs total, at least "
          ++ toString prj_required ++ " in peer-reviewed journals"), false,
        some ic_required, some prj_required, some 6, some 3, none, none, none⟩,
       !(decide (prj_count < prj_required) || decide (total_ics < ic_required)),
       w1 ++ w2)
    | FacultyCategory.PA =>
      let activities_required := max 0 (6 - total_activity_reduction)
      let w : List String :=
        if activity_count < activities_required then
          ["Need " ++ toString (activities_required - activity_count)
            ++ " more professional activities"]
        else []
      (⟨some (toString activities_required ++ " professional engagement activities"),
        false, none, none, none, none,
        some activities_required, some 6, none⟩,
       !decide (activity_count < activities_required), w)
    | FacultyCategory.SP =>
      let ic_required := max 0 (5 - total_ic_reduction)
      let prj_required :=
        if is_programme_leader then max 1 (1 - total_prj_reduction)
        else max 0 (1 - total_prj_reduction)
      let w1 : List String :=
        if prj_count < prj_required then
          ["Need " ++ toString (prj_required - prj_count) ++ " more PRJ articles"]
        else []
      let w2 : List String :=
        if total_ics < ic_required then
          ["Need " ++ toString (ic_required - total_ics) ++ " more intellectual contributions"]
        else []
      (⟨some (toString ic_required ++ " ICs total, at least "
          ++ toString prj_required ++ " in peer-reviewed journal"), false,
        some ic_required, some prj_required, some 5, some 1, none, none, none⟩,
       !(decide (prj_count < prj_required) || decide (total_ics < ic_required)),
       w1 ++ w2)
    | FacultyCategory.IP =>
      let activities_required := max 0 (6 - total_activity_reduction)
      let w : List String :=
        if activity_count < activities_required then
          ["Need " ++ toString (activities_required - activity_count)
            ++ " more professional activities"]
        else []
      (⟨some (toString activities_required ++ " professional engagement activities"),
        false, none, none, none, none,
        some activities_required, some 6, none⟩,
       !decide (activity_count < activities_required), w)
    | FacultyCategory.Other =>
      (⟨none, false, none, none, none, none, none, none, none⟩, true, [])

/-- `calculate_qualification_status(user, contributions, activities,
exemptions=None, reference_year=None)` (lines 484–661). -/
def calculate_qualification_status (user : User)
    (contributions : List Contribution) (activities : List ProfessionalActivity)
    (exemptions : Option (List UserExemption) := none)
    (reference_year : Option Int := none) : QualStatus :=
  let reference_year := reference_year.getD REFERENCE_YEAR
  match user.faculty_category with
  | none => QualStatus.not_set "Faculty category not set"
  | some category =>
    let exemptions :=
      match exemptions with
      | none => get_active_exemptions user (reference_year - 5) reference_year
      | some e => e
    let full := find_full_exemption user exemptions reference_year
    let prj_count : Int := prj_article_count contributions
    let peer_reviewed_count : Int := peer_reviewed_other_count contributions
    let other_ic_count : Int := AACSB.other_ic_count contributions
    let total_ics := prj_count + peer_reviewed_count + other_ic_count
    let activity_count : Int := (activities.length : Int)
    let agg := aggregate_reductions exemptions
    let exemption_notes := agg.2.2.2.1
    let rw : Requirements × Bool × List String :=
      category_requirements category full prj_count total_ics activity_count
        agg.1 agg.2.1 agg.2.2.1 agg.2.2.2.2
    let requirements :=
      if exemption_notes ≠ [] ∧ full = none then
        { rw.1 with exemptions_applied := some exemption_notes }
      else rw.1
    QualStatus.evaluated
      { category := category
        requirements := requirements
        current :=
          { prj_articles := prj_count
            peer_reviewed_other := peer_reviewed_count
            other_ics := other_ic_count
            total_ics := total_ics
            professional_activities := activity_count }
        requirements_met := rw.2.1
        warnings := rw.2.2
        exemptions := exemptions.map fun e =>
          { id := e.id
            type' := e.exemption_type.name
            year_from := e.year_from
            year_to := e.year_to
            in_grace_period := is_in_grace_period e reference_year } }

/-! ## The inline evaluation of `get_faculty_overview` (lines 1005–1052)

The endpoint recomputes, per faculty member, the full-exemption flag, the
Programme-Leader flag, the three reduction sums and the met verdict from
the active exemptions and the per-window counts.  We embed exactly that
block; the counts feeding it are parameters, as they are local variables
computed earlier in the loop body. -/

/-- The full-exemption / Programme-Leader scanning loop of
`get_faculty_overview` (lines 1007–1025): iterates the active exemptions,
latching `is_programme_leader` on any type named "Programme Leader"
(before the full-exemption test), and `break`s on the first qualifying
full exemption.  Returns `(has_full_exemption, is_programme_leader)`. -/
def overview_scan (active : List UserExemption) (degree_year : Option Int)
    (year_to : Int) : Bool × Bool :=
  match active with
  | [] => (false, false)
  | exemption :: rest =>
    let ex_type := exemption.exemption_type
    let pl := ex_type.name == "Programme Leader"
    if ex_type.grants_full_exemption then
      if truthyInt ex_type.years_after_degree && truthyInt degree_year then
        if year_to - degree_year.getD 0 ≤ ex_type.years_after_degree.getD 0 then
          (true, pl)
        else
          let r := overview_scan rest degree_year year_to
          (r.1, pl || r.2)
      else if !truthyInt ex_type.years_after_degree then
        if is_in_grace_period exemption year_to then (true, pl)
        else if !truthyInt exemption.year_to
            || decide (exemption.year_to.getD 0 ≥ year_to) then (true, pl)
        else
          let r := overview_scan rest degree_year year_to
          (r.1, pl || r.2)
      else
        let r := overview_scan rest degree_year year_to
        (r.1, pl || r.2)
    else
      let r := overview_scan rest degree_year year_to
      (r.1, pl || r.2)

/-- `total_ic_reduction` of `get_faculty_overview` (line 1028). -/
def overview_ic_reduction (active : List UserExemption) : Int :=
  (active.filter fun e =>
      e.exemption_type.reduces_ic_requirement
        && !e.exemption_type.grants_full_exemption).foldl
    (fun s e => s + e.exemption_type.ic_reduction) 0

/-- `total_prj_reduction` of `get_faculty_overview` (line 1029). -/
def overview_prj_reduction (active : List UserExemption) : Int :=
  (active.filter fun e =>
      e.exemption_type.reduces_prj_requirement
        && !e.exemption_type.grants_full_exemption).foldl
    (fun s e => s + e.exemption_type.prj_reduction) 0

/-- `total_activity_reduction` of `get_faculty_overview` (line 1030). -/
def overview_activity_reduction (active : List UserExemption) : Int :=
  (active.filter fun e =>
      e.exemption_type.reduces_activity_requirement
        && !e.exemption_type.grants_full_exemption).foldl
    (fun s e => s + e.exemption_type.activity_reduction) 0

/-- The met-verdict computation of `get_faculty_overview` (lines 1033–1052),
as a function of the category, the window counts, the active exemptions and
the degree year (`year_to` is the window end, used as reference year). -/
def overview_met (category : FacultyCategory)
    (prj_count total_ics activity_count : Int)
    (active : List UserExemption) (degree_year : Option Int) (year_to : Int) :
    Bool :=
  let scan := overview_scan active degree_year year_to
  let has_full_exemption := scan.1
  let is_programme_leader := scan.2
  let total_ic_reduction := overview_ic_reduction active
  let total_prj_reduction := overview_prj_reduction active
  let total_activity_reduction := overview_activity_reduction active
  if has_full_exemption then true
  else
    match category with
    | FacultyCategory.SA =>
      let prj_required0 := max 0 (3 - total_prj_reduction)
      let prj_required :=
        if is_programme_leader then max 1 prj_required0 else prj_required0
      let ic_required := max 0 (6 - total_ic_reduction)
      decide (prj_count ≥ prj_required) && decide (total_ics ≥ ic_required)
    | FacultyCategory.PA =>
      decide (activity_count ≥ max 0 (6 - total_activity_reduction))
    | FacultyCategory.SP =>
      let prj_required :=
        if is_programme_leader then (1 : Int)
        else max 0 (1 - total_prj_reduction)
      let ic_required := max 0 (5 - total_ic_reduction)
      decide (prj_count ≥ prj_required) && decide (total_ics ≥ ic_required)
    | FacultyCategory.IP =>
      decide (activity_count ≥ max 0 (6 - total_activity_reduction))
    | FacultyCategory.Other => true

/-! ## The rolling-window construction of `get_researcher_timeline`
(lines 1149–1196) -/

/-- `PublicationType` enum of `backend/models/research.py`. -/
inductive PublicationType where
  | prj_article
  | peer_reviewed_other
  | other_ic
deriving DecidableEq, Repr

/-- A `UserIntellectualContribution` as read by the timeline endpoint:
`uic.contribution.year` (nullable) and `uic.publication_type`
(the user's own classification, nullable). -/
structure UserIC where
  year : Option Int
  publication_type : Option PublicationType
deriving DecidableEq, Repr

/-- Python `range(lo, hi)` over integers. -/
def intRange (lo hi : Int) : List Int :=
  (List.range (hi - lo).toNat).map fun (i : Nat) => lo + (i : Int)

/-- The recorded years of the timeline: keys of `ics_by_year` (contribution
years, skipping falsy years, line 1152) united with keys of
`activities_by_year` (all activity years); `\x7bREFERENCE_YEAR\x7d` when empty
(line 1168).  Duplicates are irrelevant: only `min`/`max` are taken. -/
def timeline_all_years (ics : List UserIC)
    (activities : List ProfessionalActivity) : List Int :=
  let l := (ics.filter fun u => truthyInt u.year).map (fun u => u.year.getD 0)
    ++ activities.map (fun a => a.year)
  if l = [] then [REFERENCE_YEAR] else l

/-- `min_year = min(all_years)` (line 1169). -/
def timeline_min_year (ics : List UserIC)
    (activities : List ProfessionalActivity) : Int :=
  ((timeline_all_years ics activities).min?).getD 0

/-- `max_year = max(max(all_years), REFERENCE_YEAR)` (line 1170). -/
def timeline_max_year (ics : List UserIC)
    (activities : List ProfessionalActivity) : Int :=
  max (((timeline_all_years ics activities).max?).getD 0) REFERENCE_YEAR

/-- One record of the `rolling_windows` list (lines 1292–1304), restricted
to the fields produced by the window construction itself (period, bucketed
counts, current/future flags); the per-window requirement evaluation
(lines 1198–1290) repeats the overview logic embedded above and is not
needed for the window-extent claims. -/
structure RollingWindow where
  year_from : Int
  year_to : Int
  prj_count : Int
  total_ics : Int
  activities : Int
  is_current : Bool
  is_future : Bool
deriving DecidableEq, Repr

/-- The rolling-window loop of `get_researcher_timeline` (lines 1192–1196):
`for end_year in range(max(min_year + 5, REFERENCE_YEAR - 2), max_year + 3)`,
with `start_year = end_year - 5` and bucketed counts summed over the
window. -/
def rolling_windows (ics : List UserIC)
    (activities : List ProfessionalActivity) : List RollingWindow :=
  let min_year := timeline_min_year ics activities
  let max_year := timeline_max_year ics activities
  (intRange (max (min_year + 5) (REFERENCE_YEAR - 2)) (max_year + 3)).map
    fun end_year =>
      let start_year := end_year - 5
      let ics_in := ics.filter fun u =>
        truthyInt u.year && decide (start_year ≤ u.year.getD 0)
          && decide (u.year.getD 0 ≤ end_year)
      { year_from := start_year
        year_to := end_year
        prj_count := ((ics_in.filter fun u =>
            u.publication_type == some PublicationType.prj_article).length : Int)
        total_ics := (ics_in.length : Int)
        activities := ((activities.filter fun a =>
            decide (start_year ≤ a.year) && decide (a.year ≤ end_year)).length : Int)
        is_current := decide (start_year = REFERENCE_YEAR - 5)
          && decide (end_year = REFERENCE_YEAR)
        is_future := decide (end_year > REFERENCE_YEAR) }

/-! ## Concrete fixtures used in counterexamples and witnesses -/

/-- A full-exemption type with no degree anchor and no grace period
(e.g. a "Dean" service exemption). -/
def dean_type : ExemptionType :=
  { name := "Dean", reduces_ic_requirement := false,
    reduces_prj_requirement := false, reduces_activity_requirement := false,
    grants_full_exemption := true, ic_reduction := 0, prj_reduction := 0,
    activity_reduction := 0, years_after_degree := none,
    grace_period_years := none }

/-- An ongoing grant (`year_to = None`) of `dean_type`. -/
def grant_ongoing_dean : UserExemption :=
  { id := 7, exemption_type := dean_type, year_from := 2000, year_to := none }

/-- An SA user holding only the ongoing dean grant. -/
def user_with_dean : User :=
  { faculty_category := some FacultyCategory.SA, degree_year := none,
    exemptions := [grant_ongoing_dean] }

/-- A partial type with a 2-year grace period (`gracePeriodYears = 2`). -/
def sabbatical_type : ExemptionType :=
  { name := "Sabbatical", reduces_ic_requirement := true,
    reduces_prj_requirement := false, reduces_activity_requirement := false,
    grants_full_exemption := false, ic_reduction := 2, prj_reduction := 0,
    activity_reduction := 0, years_after_degree := none,
    grace_period_years := some 2 }

/-- A grant of `sabbatical_type` for 2018–2020 (`yearTo = 2020`). -/
def grant_2018_2020 : UserExemption :=
  { id := 3, exemption_type := sabbatical_type, year_from := 2018,
    year_to := some 2020 }

/-- An SA user holding only `grant_2018_2020`. -/
def user_with_sabbatical : User :=
  { faculty_category := some FacultyCategory.SA, degree_year := none,
    exemptions := [grant_2018_2020] }

/-- A type with a 2-year grace period, used to probe `is_in_grace_period`. -/
def headship_type : ExemptionType :=
  { name := "Head of Department", reduces_ic_requirement := false,
    reduces_prj_requirement := false, reduces_activity_requirement := false,
    grants_full_exemption := false, ic_reduction := 0, prj_reduction := 0,
    activity_reduction := 0, years_after_degree := none,
    grace_period_years := some 2 }

/-- A grant whose `year_to` is the integer `0`: set (non-null) in the
database, but falsy for Python truthiness. -/
def grant_year_to_zero : UserExemption :=
  { id := 8, exemption_type := headship_type, year_from := -5,
    year_to := some 0 }

/-- An SA user with no exemptions. -/
def user_SA_plain : User :=
  { faculty_category := some FacultyCategory.SA, degree_year := none,
    exemptions := [] }

/-- 2 PRJ articles and 3 other intellectual contributions. -/
def contribs_2prj_3other : List Contribution :=
  List.replicate 2 ⟨some "prj_article"⟩ ++ List.replicate 3 ⟨some "other_ic"⟩

/-- A user whose category is `Other`. -/
def user_other : User :=
  { faculty_category := some FacultyCategory.Other, degree_year := none,
    exemptions := [] }

/-- A user whose category is not set (`None`). -/
def user_no_category : User :=
  { faculty_category := none, degree_year := none, exemptions := [] }

/-- A single PRJ-article contribution. -/
def contribs_1prj : List Contribution := [⟨some "prj_article"⟩]

/-- An exemption type named "Programme Leader" that grants a *full*
exemption anchored to the degree year (`yearsAfterDegree = 5`). -/
def pl_full_type : ExemptionType :=
  { name := "Programme Leader", reduces_ic_requirement := false,
    reduces_prj_requirement := false, reduces_activity_requirement := false,
    grants_full_exemption := true, ic_reduction := 0, prj_reduction := 0,
    activity_reduction := 0, years_after_degree := some 5,
    grace_period_years := none }

/-- An ongoing grant of `pl_full_type`. -/
def grant_pl_full : UserExemption :=
  { id := 1, exemption_type := pl_full_type, year_from := 2020, year_to := none }

/-- A partial type reducing the PRJ requirement by 1. -/
def buyout_type : ExemptionType :=
  { name := "Course Buyout", reduces_ic_requirement := false,
    reduces_prj_requirement := true, reduces_activity_requirement := false,
    grants_full_exemption := false, ic_reduction := 0, prj_reduction := 1,
    activity_reduction := 0, years_after_degree := none,
    grace_period_years := none }

/-- An ongoing grant of `buyout_type`. -/
def grant_buyout : UserExemption :=
  { id := 2, exemption_type := buyout_type, year_from := 2020, year_to := none }

/-- An SP user (degree 2000) holding the full "Programme Leader" grant and
the partial buyout grant. -/
def user_SP_pl_full : User :=
  { faculty_category := some FacultyCategory.SP, degree_year := some 2000,
    exemptions := [grant_pl_full, grant_buyout] }

/-- 5 other intellectual contributions (no PRJ). -/
def contribs_5other : List Contribution := List.replicate 5 ⟨some "other_ic"⟩

/-- A *partial* "Programme Leader" type reducing PRJ by 3 (not a full
exemption). -/
def pl_reducing_type : ExemptionType :=
  { name := "Programme Leader", reduces_ic_requirement := false,
    reduces_prj_requirement := true, reduces_activity_requirement := false,
    grants_full_exemption := false, ic_reduction := 0, prj_reduction := 3,
    activity_reduction := 0, years_after_degree := none,
    grace_period_years := none }

/-- An ongoing grant of `pl_reducing_type`. -/
def grant_pl_reducing : UserExemption :=
  { id := 4, exemption_type := pl_reducing_type, year_from := 2020,
    year_to := none }

/-- An SP user with no exemptions on record. -/
def user_SP_plain : User :=
  { faculty_category := some FacultyCategory.SP, degree_year := none,
    exemptions := [] }

/-- A single PRJ contribution recorded in 2019 (timeline fixture). -/
def ic_2019 : UserIC := { year := some 2019, publication_type := some PublicationType.prj_article }

instance : Std.Antisymm (fun (x y : Int) => x ≤ y) :=
  ⟨fun h h2 => le_antisymm h h2⟩

/-! ## Helper lemmas -/

lemma mem_intRange (lo hi y : Int) : y ∈ intRange lo hi ↔ lo ≤ y ∧ y < hi := by
  simp only [intRange, List.mem_map, List.mem_range]
  constructor
  · rintro ⟨i, hi', hy⟩
    omega
  · rintro ⟨h1, h2⟩
    refine ⟨(y - lo).toNat, ?_, ?_⟩ <;> omega

lemma int_min?_eq_some_iff (l : List Int) (m : Int) :
    l.min? = some m ↔ m ∈ l ∧ ∀ x ∈ l, m ≤ x := by
  apply List.min?_eq_some_iff
  · exact fun a => le_refl a
  · exact fun a b => min_choice a b
  · exact fun a b c => le_min_iff

lemma int_max?_eq_some_iff (l : List Int) (m : Int) :
    l.max? = some m ↔ m ∈ l ∧ ∀ x ∈ l, x ≤ m := by
  apply List.max?_eq_some_iff
  · exact fun a => le_refl a
  · exact fun a b => max_choice a b
  · exact fun a b c => max_le_iff

lemma filter_singleton_eq (p : UserExemption → Bool) (e : UserExemption) :
    List.filter p [e] = [e] ↔ p e = true := by
  by_cases h : p e <;> simp [List.filter_cons, h]

lemma filter_singleton_nil (p : UserExemption → Bool) (e : UserExemption) :
    List.filter p [e] = [] ↔ p e = false := by
  by_cases h : p e <;> simp [List.filter_cons, h]

lemma foldl_aggregate_step_filter (l : List UserExemption) :
    ∀ acc, List.foldl aggregate_step acc l
      = List.foldl aggregate_step acc
          (List.filter (fun e => !e.exemption_type.grants_full_exemption) l) := by
  induction l with
  | nil => intro acc; rfl
  | cons e l ih =>
    intro acc
    by_cases h : e.exemption_type.grants_full_exemption
    · have hstep : aggregate_step acc e = acc := by simp [aggregate_step, h]
      simp [List.filter_cons, h, List.foldl_cons, hstep, ih]
    · simp [List.filter_cons, h, List.foldl_cons, ih]

lemma category_requirements_other_eq (full : Option (ExemptionType × String))
    (p t a' r1 r2 r3 : Int) (pl : Bool) :
    category_requirements FacultyCategory.Other full p t a' r1 r2 r3 pl
      = (⟨Option.map (fun fr => "Full exemption: " ++ fr.2) full, full.isSome,
          none, none, none, none, none, none, none⟩, true, []) := by
  rcases full with _ | ⟨ft, reason⟩ <;> rfl

/-! ## Claim theorems -/

/-- Claim C3, counterexample: the grant with `yearTo = 2020` and
`gracePeriodYears = 2` IS returned by `get_active_exemptions` for the
reference-year-2023 evaluation window `[2018, 2023]` (the claim asserts it
is not returned at 2023); what ends at 2023 is only the grace period. -/
theorem c3_counterexample :
    get_active_exemptions user_with_sabbatical (2023 - 5) 2023 = [grant_2018_2020]
      ∧ is_in_grace_period grant_2018_2020 2023 = false := by decide

/-- Claim C3 (amended): with `yearTo = 2020`, `gracePeriodYears = 2` and
`yearFrom = 2018`, the grant is returned by `get_active_exemptions` for the
evaluation window `[r - 5, r]` exactly for reference years `2018 ≤ r ≤ 2027`
(so in particular at 2021, 2022 and still at 2023), and it is in its grace
period exactly for `r ∈ \x7b2021, 2022\x7d`. -/
theorem c3_amended (r : Int) :
    (get_active_exemptions user_with_sabbatical (r - 5) r = [grant_2018_2020] ↔
      2018 ≤ r ∧ r ≤ 2027) ∧
    (is_in_grace_period grant_2018_2020 r = true ↔ 2021 ≤ r ∧ r ≤ 2022) := by
  constructor
  · have he : user_with_sabbatical.exemptions = [grant_2018_2020] := rfl
    rw [get_active_exemptions, he, filter_singleton_eq]
    simp [grant_2018_2020, sabbatical_type, truthyInt, REFERENCE_YEAR]
  · simp [is_in_grace_period, grant_2018_2020, sabbatical_type, truthyInt]
    omega

/-- Claim C8, counterexample: for a grant whose `year_to` is the integer
`0` (a set, non-null column value) with `gracePeriodYears = 2` and
reference year `1`, the claimed characterisation (non-null `yearTo`,
non-zero grace, `yearTo < r ≤ yearTo + grace`) demands `True`, but
`is_in_grace_period` returns `False`: Python's `if not exemption.year_to`
treats the set value `0` like null. -/
theorem c8_counterexample :
    ¬(is_in_grace_period grant_year_to_zero 1 = true ↔
      (grant_year_to_zero.year_to.isSome = true ∧
       grant_year_to_zero.exemption_type.grace_period_years.getD 0 ≠ 0 ∧
       grant_year_to_zero.year_to.getD 0 < 1 ∧
       1 ≤ grant_year_to_zero.year_to.getD 0
         + grant_year_to_zero.exemption_type.grace_period_years.getD 0)) := by
  decide

/-- Claim C8 (amended): `is_in_grace_period(grant, r)` returns `True` iff
the grant's `yearTo` is set AND non-zero (Python truthiness), the type's
`gracePeriodYears` (null read as 0) is non-zero, and
`yearTo < r ≤ yearTo + gracePeriodYears`; in particular it returns `False`
whenever `gracePeriodYears` is zero or null, or `yearTo` is null. -/
theorem c8_amended (e : UserExemption) (r : Int) :
    is_in_grace_period e r = true ↔
      (truthyInt e.year_to = true ∧
       e.exemption_type.grace_period_years.getD 0 ≠ 0 ∧
       e.year_to.getD 0 < r ∧
       r ≤ e.year_to.getD 0 + e.exemption_type.grace_period_years.getD 0) := by
  rw [is_in_grace_period]
  by_cases h : truthyInt e.year_to = true
  · simp only [h, Bool.not_true, Bool.false_eq_true, if_false]
    split_ifs with hg
    · simp [h, hg]
    · simp [h, hg]
  · rw [Bool.not_eq_true] at h
    simp [h]

/-- Claim C9: an SA faculty member with no exemptions and 2 PRJ articles
plus 3 other intellectual contributions (5 total) at reference year 2025
gets `met = false`, thresholds 6 total ICs and 3 PRJ, and shortfall
warnings for 1 more PRJ article and 1 more intellectual contribution. -/
theorem c9_sa_shortfall :
    calculate_qualification_status user_SA_plain contribs_2prj_3other []
        (some []) (some 2025)
      = QualStatus.evaluated
        { category := FacultyCategory.SA,
          requirements :=
            { description := some "6 ICs total, at least 3 in peer-reviewed journals",
              exemption_applied := false, total_ics_required := some 6,
              prj_required := some 3, base_ics_required := some 6,
              base_prj_required := some 3, activities_required := none,
              base_activities_required := none, exemptions_applied := none },
          current := { prj_articles := 2, peer_reviewed_other := 0, other_ics := 3,
                       total_ics := 5, professional_activities := 0 },
          requirements_met := false,
          warnings := ["Need 1 more PRJ articles",
                       "Need 1 more intellectual contributions"],
          exemptions := [] } := by decide

/-- Claim C6: the Reduction Aggregator ignores grants whose type grants a
full exemption — the aggregation over any exemption list equals the
aggregation over its non-full sublist, so a full-exemption grant
contributes nothing to any reduction sum (or to the notes or the
Programme-Leader flag) even when its reduction fields are populated. -/
theorem c6_full_exemptions_excluded (exemptions : List UserExemption) :
    aggregate_reductions exemptions
      = aggregate_reductions
          (List.filter (fun e => !e.exemption_type.grants_full_exemption)
            exemptions) := by
  unfold aggregate_reductions
  exact foldl_aggregate_step_filter exemptions _

/-- Claim C5: whenever the full-exemption search succeeds,
`calculate_qualification_status` reports `requirements_met = true`, a
requirements object holding only the description (with the exemption
reason) and the `exemption_applied` marker — no numeric thresholds — and
an empty warnings list, regardless of the actual counts. -/
theorem c5_full_exemption (u : User) (cat : FacultyCategory)
    (c : List Contribution) (a : List ProfessionalActivity)
    (ex : List UserExemption) (r : Int) (t : ExemptionType) (reason : String)
    (hcat : u.faculty_category = some cat)
    (hfull : find_full_exemption u ex r = some (t, reason)) :
    (calculate_qualification_status u c a (some ex) (some r)).met? = some true ∧
    (calculate_qualification_status u c a (some ex) (some r)).requirements?
      = some { description := some ("Full exemption: " ++ reason),
               exemption_applied := true } ∧
    (calculate_qualification_status u c a (some ex) (some r)).warnings?
      = some [] := by
  simp [calculate_qualification_status, hcat, hfull, category_requirements,
    QualStatus.met?, QualStatus.requirements?, QualStatus.warnings?]

/-- Witness for C5 at a concrete input: an ongoing "Dean" full exemption. -/
theorem c5_witness :
    (calculate_qualification_status user_with_dean [] []
        (some [grant_ongoing_dean]) (some 2025)).met? = some true ∧
    (calculate_qualification_status user_with_dean [] []
        (some [grant_ongoing_dean]) (some 2025)).requirements?
      = some { description := some ("Full exemption: " ++ "Dean (currently serving)"),
               exemption_applied := true } ∧
    (calculate_qualification_status user_with_dean [] []
        (some [grant_ongoing_dean]) (some 2025)).warnings? = some [] :=
  c5_full_exemption user_with_dean FacultyCategory.SA [] [] [grant_ongoing_dean]
    2025 dean_type "Dean (currently serving)" rfl (by decide)

/-- Claim C4: in an SP evaluation with no full exemption and the
Programme-Leader flag set, the computed PRJ requirement is exactly 1 for
every non-negative aggregated PRJ reduction. -/
theorem c4_sp_programme_leader (u : User) (c : List Contribution)
    (a : List ProfessionalActivity) (ex : List UserExemption) (r : Int)
    (hcat : u.faculty_category = some FacultyCategory.SP)
    (hfull : find_full_exemption u ex r = none)
    (hpl : (aggregate_reductions ex).2.2.2.2 = true)
    (hred : 0 ≤ (aggregate_reductions ex).2.1) :
    ((calculate_qualification_status u c a (some ex) (some r)).requirements?).map
        Requirements.prj_required = some (some 1) := by
  simp [calculate_qualification_status, hcat, hfull, category_requirements, hpl,
    QualStatus.requirements?]
  split_ifs <;> simp <;> omega

/-- Witness for C4: SP user with a partial "Programme Leader" grant whose
`prj_reduction` is 3; the PRJ requirement is still exactly 1. -/
theorem c4_witness :
    ((calculate_qualification_status user_SP_plain [] []
        (some [grant_pl_reducing]) (some 2025)).requirements?).map
      Requirements.prj_required = some (some 1) :=
  c4_sp_programme_leader user_SP_plain [] [] [grant_pl_reducing] 2025 rfl
    (by decide) (by decide) (by decide)

/-- Claim C2, counterexample: a faculty member with `category = Other`
does NOT short-circuit to a "not evaluated" result: the code runs the full
evaluation and returns an evaluated dict with computed counts and a
`requirements_met = true` verdict (the claim predicts a short-circuit with
no numeric computation, as happens only for a null category). -/
theorem c2_counterexample :
    calculate_qualification_status user_other contribs_1prj [] (some [])
        (some 2025)
      = QualStatus.evaluated
        { category := FacultyCategory.Other,
          requirements := {},
          current := { prj_articles := 1, peer_reviewed_other := 0,
                       other_ics := 0, total_ics := 1,
                       professional_activities := 0 },
          requirements_met := true, warnings := [], exemptions := [] } := by
  decide

/-- Claim C2 (amended): a null category short-circuits to the
`not_set` result; a member with `category = Other` instead goes through
the evaluation (counts are computed and returned) but no numeric
thresholds are ever produced and `requirements_met` is `true` regardless
of the counts. -/
theorem c2_amended (u v : User) (c : List Contribution)
    (a : List ProfessionalActivity) (ex : Option (List UserExemption))
    (r : Option Int)
    (hu : u.faculty_category = some FacultyCategory.Other)
    (hv : v.faculty_category = none) :
    calculate_qualification_status v c a ex r
        = QualStatus.not_set "Faculty category not set" ∧
    (calculate_qualification_status u c a ex r).met? = some true ∧
    ((calculate_qualification_status u c a ex r).requirements?).map
        (fun q => (q.total_ics_required, q.prj_required, q.activities_required,
          q.base_ics_required, q.base_prj_required, q.base_activities_required))
      = some (none, none, none, none, none, none) := by
  refine ⟨by simp [calculate_qualification_status, hv], ?_, ?_⟩
  · simp [calculate_qualification_status, hu, QualStatus.met?,
      category_requirements_other_eq]
  · simp only [calculate_qualification_status, hu, QualStatus.requirements?,
      category_requirements_other_eq]
    split_ifs <;> simp

/-- Witness for C2 at concrete inputs: an `Other` user with one PRJ
contribution, and a user with no category. -/
theorem c2_witness :
    calculate_qualification_status user_no_category contribs_1prj [] (some [])
        (some 2025) = QualStatus.not_set "Faculty category not set" ∧
    (calculate_qualification_status user_other contribs_1prj [] (some [])
        (some 2025)).met? = some true ∧
    ((calculate_qualification_status user_other contribs_1prj [] (some [])
        (some 2025)).requirements?).map
        (fun q => (q.total_ics_required, q.prj_required, q.activities_required,
          q.base_ics_required, q.base_prj_required, q.base_activities_required))
      = some (none, none, none, none, none, none) :=
  c2_amended user_other user_no_category contribs_1prj [] (some []) (some 2025)
    rfl rfl

/-- Claim C1, counterexample: an ongoing grant (`year_to = None`) is NOT
treated as unbounded.  `grant_ongoing_dean` satisfies
`year_from ≤ windowEnd` for the window `[2040, 2045]`, yet
`get_active_exemptions` omits it (its effective end is
`REFERENCE_YEAR + 10 = 2035`); consequently the ongoing full-exemption
grant yields no full exemption at reference year 2050. -/
theorem c1_counterexample :
    grant_ongoing_dean.year_to = none ∧
    grant_ongoing_dean.exemption_type.grants_full_exemption = true ∧
    grant_ongoing_dean.year_from ≤ 2045 ∧
    get_active_exemptions user_with_dean 2040 2045 = [] ∧
    ((calculate_qualification_status user_with_dean [] [] none
        (some 2050)).requirements?).map Requirements.exemption_applied
      = some false := by decide

/-- Claim C1 (amended): for an ongoing grant (`yearTo = null`) the
Exemption Resolver substitutes `REFERENCE_YEAR + 10` (= 2035) for the
missing end, so the grant is active for `[windowStart, windowEnd]` iff
`yearFrom ≤ windowEnd` and `windowStart ≤ 2035 + gracePeriodYears` — not
for every window with `yearFrom ≤ windowEnd`; an ongoing full-exemption
grant with no `yearsAfterDegree` yields a full exemption exactly for
reference years `r` with `yearFrom ≤ r ≤ 2040 + gracePeriodYears`, not for
every future reference year. -/
theorem c1_amended (u : User) (e : UserExemption) (cat : FacultyCategory)
    (ws we r : Int)
    (hex : u.exemptions = [e]) (hyt : e.year_to = none)
    (hcat : u.faculty_category = some cat)
    (hfull : e.exemption_type.grants_full_exemption = true)
    (hyad : e.exemption_type.years_after_degree = none) :
    (get_active_exemptions u ws we = [e] ↔
      e.year_from ≤ we ∧
        ws ≤ REFERENCE_YEAR + 10 + e.exemption_type.grace_period_years.getD 0) ∧
    (((calculate_qualification_status u [] [] none (some r)).requirements?).map
        Requirements.exemption_applied = some true ↔
      e.year_from ≤ r ∧
        r ≤ REFERENCE_YEAR + 15 + e.exemption_type.grace_period_years.getD 0) := by
  constructor
  · rw [get_active_exemptions, hex, filter_singleton_eq]
    simp [hyt, truthyInt, REFERENCE_YEAR]
  · by_cases hC : e.year_from ≤ r ∧
        r - 5 ≤ 2035 + e.exemption_type.grace_period_years.getD 0
    · have hact : get_active_exemptions u (r - 5) r = [e] := by
        rw [get_active_exemptions, hex, filter_singleton_eq]
        simp [hyt, truthyInt, REFERENCE_YEAR]
        omega
      have hfind : find_full_exemption u [e] r
          = some (e.exemption_type, e.exemption_type.name ++ " (currently serving)") := by
        rw [find_full_exemption]
        simp [hfull, hyad, truthyInt, is_in_grace_period, hyt]
      simp [calculate_qualification_status, hcat, hact, hfind,
        category_requirements, QualStatus.requirements?, REFERENCE_YEAR]
      omega
    · have hact : get_active_exemptions u (r - 5) r = [] := by
        rw [get_active_exemptions, hex, filter_singleton_nil]
        simp [hyt, truthyInt, REFERENCE_YEAR]
        omega
      have hfind : find_full_exemption u [] r = none := rfl
      simp only [calculate_qualification_status, hcat, hact, hfind,
        QualStatus.requirements?, Option.getD_some]
      cases cat <;>
        simp [category_requirements, aggregate_reductions, REFERENCE_YEAR] <;>
        omega

/-- Witness for C1 (amended) at the concrete ongoing dean grant: for the
window `[2030, 2031]` the grant is active (2030 ≤ 2035), and at reference
year 2030 the full exemption applies (2030 ≤ 2040). -/
theorem c1_witness :
    (get_active_exemptions user_with_dean 2030 2031 = [grant_ongoing_dean] ↔
      grant_ongoing_dean.year_from ≤ 2031 ∧
        (2030 : Int) ≤ REFERENCE_YEAR + 10
          + grant_ongoing_dean.exemption_type.grace_period_years.getD 0) ∧
    (((calculate_qualification_status user_with_dean [] [] none
          (some 2030)).requirements?).map Requirements.exemption_applied
        = some true ↔
      grant_ongoing_dean.year_from ≤ 2030 ∧
        (2030 : Int) ≤ REFERENCE_YEAR + 15
          + grant_ongoing_dean.exemption_type.grace_period_years.getD 0) :=
  c1_amended user_with_dean grant_ongoing_dean FacultyCategory.SA 2030 2031 2030
    rfl rfl rfl rfl rfl

lemma overview_scan_fst (u : User) (ex : List UserExemption) (r : Int) :
    (overview_scan ex u.degree_year r).1
      = (find_full_exemption u ex r).isSome := by
  induction ex with
  | nil => rfl
  | cons e t ih =>
    simp only [overview_scan, find_full_exemption]
    split_ifs <;> simp [ih]

lemma overview_scan_snd (ex : List UserExemption) (dy : Option Int) (r : Int)
    (h : (overview_scan ex dy r).1 = false) :
    (overview_scan ex dy r).2
      = ex.any fun e => e.exemption_type.name == "Programme Leader" := by
  induction ex with
  | nil => rfl
  | cons e t ih =>
    simp only [overview_scan] at h ⊢
    split_ifs at h ⊢ <;> simp_all

lemma foldl_aggregate_pl (ex : List UserExemption) :
    ∀ acc : Int × Int × Int × List String × Bool,
    (List.foldl aggregate_step acc ex).2.2.2.2
      = (acc.2.2.2.2
          || ex.any fun e => !e.exemption_type.grants_full_exemption
              && (e.exemption_type.name == "Programme Leader")) := by
  induction ex with
  | nil => intro acc; simp
  | cons e t ih =>
    intro acc
    by_cases h : e.exemption_type.grants_full_exemption
    · have hstep : aggregate_step acc e = acc := by simp [aggregate_step, h]
      simp only [List.foldl_cons, List.any_cons, hstep]
      simp [ih, h]
    · simp only [List.foldl_cons, List.any_cons]
      rw [ih]
      simp [aggregate_step, h, Bool.or_assoc]

lemma aggregate_pl_any (ex : List UserExemption) :
    (aggregate_reductions ex).2.2.2.2
      = ex.any fun e => !e.exemption_type.grants_full_exemption
          && (e.exemption_type.name == "Programme Leader") := by
  rw [aggregate_reductions, foldl_aggregate_pl]
  rfl

lemma pl_any_congr (ex : List UserExemption)
    (hnopl : ∀ e ∈ ex, ¬(e.exemption_type.name = "Programme Leader"
        ∧ e.exemption_type.grants_full_exemption = true)) :
    (ex.any fun e => e.exemption_type.name == "Programme Leader")
      = ex.any fun e => !e.exemption_type.grants_full_exemption
          && (e.exemption_type.name == "Programme Leader") := by
  induction ex with
  | nil => rfl
  | cons e t ih =>
    simp only [List.any_cons]
    rw [ih fun x hx => hnopl x (List.mem_cons_of_mem e hx)]
    have he := hnopl e (List.mem_cons_self e t)
    by_cases hn : e.exemption_type.name = "Programme Leader"
    · have hb : e.exemption_type.grants_full_exemption = false := by
        cases hb2 : e.exemption_type.grants_full_exemption
        · rfl
        · exact absurd ⟨hn, hb2⟩ he
      have hbeq : (e.exemption_type.name == "Programme Leader") = true := by
        simp [hn]
      simp [hbeq, hb]
    · have hbeq : (e.exemption_type.name == "Programme Leader") = false := by
        simp [hn]
      simp [hbeq]

lemma foldl_aggregate_sums (ex : List UserExemption) :
    ∀ acc : Int × Int × Int × List String × Bool,
    (List.foldl aggregate_step acc ex).1 = acc.1 + (aggregate_reductions ex).1
      ∧ (List.foldl aggregate_step acc ex).2.1
          = acc.2.1 + (aggregate_reductions ex).2.1
      ∧ (List.foldl aggregate_step acc ex).2.2.1
          = acc.2.2.1 + (aggregate_reductions ex).2.2.1 := by
  induction ex with
  | nil => intro acc; simp [aggregate_reductions]
  | cons e t ih =>
    intro acc
    have hagg : aggregate_reductions (e :: t)
        = List.foldl aggregate_step (aggregate_step (0, 0, 0, [], false) e) t := rfl
    by_cases h : e.exemption_type.grants_full_exemption
    · have hstep : ∀ acc', aggregate_step acc' e = acc' := by
        intro acc'; simp [aggregate_step, h]
      simp only [List.foldl_cons, hagg, hstep]
      exact ih acc
    · have hstep : ∀ acc' : Int × Int × Int × List String × Bool,
          aggregate_step acc' e
            = (acc'.1 + (if e.exemption_type.reduces_ic_requirement then
                  e.exemption_type.ic_reduction else 0),
               acc'.2.1 + (if e.exemption_type.reduces_prj_requirement then
                  e.exemption_type.prj_reduction else 0),
               acc'.2.2.1 + (if e.exemption_type.reduces_activity_requirement then
                  e.exemption_type.activity_reduction else 0),
               acc'.2.2.2.1 ++ [e.exemption_type.name],
               acc'.2.2.2.2 || (e.exemption_type.name == "Programme Leader")) := by
        intro acc'; simp [aggregate_step, h]
      simp only [List.foldl_cons, hagg, hstep]
      obtain ⟨i1, p1, a1⟩ := ih (aggregate_step acc e)
      obtain ⟨i2, p2, a2⟩ := ih (aggregate_step (0, 0, 0, [], false) e)
      simp only [hstep] at i1 p1 a1 i2 p2 a2
      refine ⟨?_, ?_, ?_⟩ <;> (first | rw [i1, i2] | rw [p1, p2] | rw [a1, a2]) <;> ring

lemma foldl_add_init {α : Type} (f : α → Int) (l : List α) (s : Int) :
    l.foldl (fun a x => a + f x) s = s + l.foldl (fun a x => a + f x) 0 := by
  induction l generalizing s with
  | nil => simp
  | cons x xs ihl =>
    simp only [List.foldl_cons]
    rw [ihl, ihl (0 + f x)]
    ring

lemma overview_fold_cons (p : UserExemption → Bool) (f : UserExemption → Int)
    (e : UserExemption) (t : List UserExemption) :
    (List.filter p (e :: t)).foldl (fun s x => s + f x) 0
      = (if p e then f e else 0)
        + (List.filter p t).foldl (fun s x => s + f x) 0 := by
  by_cases hp : p e
  · simp only [List.filter_cons, hp, if_true, List.foldl_cons]
    rw [foldl_add_init]
    ring
  · simp only [List.filter_cons, hp]
    simp [hp]

lemma aggregate_eq_overview (ex : List UserExemption) :
    (aggregate_reductions ex).1 = overview_ic_reduction ex ∧
    (aggregate_reductions ex).2.1 = overview_prj_reduction ex ∧
    (aggregate_reductions ex).2.2.1 = overview_activity_reduction ex := by
  induction ex with
  | nil => exact ⟨rfl, rfl, rfl⟩
  | cons e t ih =>
    obtain ⟨ihi, ihp, iha⟩ := ih
    obtain ⟨f1, f2, f3⟩ :=
      foldl_aggregate_sums t (aggregate_step (0, 0, 0, [], false) e)
    have hagg : aggregate_reductions (e :: t)
        = List.foldl aggregate_step (aggregate_step (0, 0, 0, [], false) e) t := rfl
    have hoc1 : overview_ic_reduction (e :: t)
        = (if e.exemption_type.reduces_ic_requirement
              && !e.exemption_type.grants_full_exemption
            then e.exemption_type.ic_reduction else 0)
          + overview_ic_reduction t :=
      overview_fold_cons _ _ e t
    have hoc2 : overview_prj_reduction (e :: t)
        = (if e.exemption_type.reduces_prj_requirement
              && !e.exemption_type.grants_full_exemption
            then e.exemption_type.prj_reduction else 0)
          + overview_prj_reduction t :=
      overview_fold_cons _ _ e t
    have hoc3 : overview_activity_reduction (e :: t)
        = (if e.exemption_type.reduces_activity_requirement
              && !e.exemption_type.grants_full_exemption
            then e.exemption_type.activity_reduction else 0)
          + overview_activity_reduction t :=
      overview_fold_cons _ _ e t
    by_cases h : e.exemption_type.grants_full_exemption
    · have hstep : aggregate_step (0, 0, 0, [], false) e = (0, 0, 0, [], false) := by
        simp [aggregate_step, h]
      have z1 : (if e.exemption_type.reduces_ic_requirement
            && !e.exemption_type.grants_full_exemption
          then e.exemption_type.ic_reduction else 0) = 0 := by simp [h]
      have z2 : (if e.exemption_type.reduces_prj_requirement
            && !e.exemption_type.grants_full_exemption
          then e.exemption_type.prj_reduction else 0) = 0 := by simp [h]
      have z3 : (if e.exemption_type.reduces_activity_requirement
            && !e.exemption_type.grants_full_exemption
          then e.exemption_type.activity_reduction else 0) = 0 := by simp [h]
      rw [hagg, hstep, hoc1, hoc2, hoc3, z1, z2, z3]
      simp only [zero_add]
      exact ⟨ihi, ihp, iha⟩
    · have hb : e.exemption_type.grants_full_exemption = false := by
        cases hb2 : e.exemption_type.grants_full_exemption
        · rfl
        · exact absurd hb2 h
      have hs1 : (aggregate_step (0, 0, 0, [], false) e).1
          = (if e.exemption_type.reduces_ic_requirement
              then e.exemption_type.ic_reduction else 0) := by
        simp [aggregate_step, hb]
      have hs2 : (aggregate_step (0, 0, 0, [], false) e).2.1
          = (if e.exemption_type.reduces_prj_requirement
              then e.exemption_type.prj_reduction else 0) := by
        simp [aggregate_step, hb]
      have hs3 : (aggregate_step (0, 0, 0, [], false) e).2.2.1
          = (if e.exemption_type.reduces_activity_requirement
              then e.exemption_type.activity_reduction else 0) := by
        simp [aggregate_step, hb]
      refine ⟨?_, ?_, ?_⟩
      · rw [hagg, f1, hs1, hoc1, ← ihi, hb]
        simp
      · rw [hagg, f2, hs2, hoc2, ← ihp, hb]
        simp
      · rw [hagg, f3, hs3, hoc3, ← iha, hb]
        simp

lemma aggregate_prj_nonneg (ex : List UserExemption)
    (h : ∀ e ∈ ex, 0 ≤ e.exemption_type.prj_reduction) :
    0 ≤ (aggregate_reductions ex).2.1 := by
  induction ex with
  | nil => simp [aggregate_reductions]
  | cons e t ih =>
    have hagg : aggregate_reductions (e :: t)
        = List.foldl aggregate_step (aggregate_step (0, 0, 0, [], false) e) t := rfl
    have hfold := (foldl_aggregate_sums t (aggregate_step (0, 0, 0, [], false) e)).2.1
    rw [hagg, hfold]
    have ht := ih fun x hx => h x (List.mem_cons_of_mem e hx)
    have he := h e (List.mem_cons_self e t)
    by_cases hf : e.exemption_type.grants_full_exemption
    · simp [aggregate_step, hf]
      omega
    · by_cases hr : e.exemption_type.reduces_prj_requirement <;>
        simp [aggregate_step, hf, hr] <;> omega

/-- Claim C7: the timeline builder produces exactly the 6-year windows
`[end - 5, end]` for `end` ranging over the consecutive integers from
`max(minYear + 5, REFERENCE_YEAR - 2)` up to `maxYear + 2` (the last end
is `maxYear + 2` whenever the range is non-empty), where `minYear` is the
least recorded year (the reference year when nothing is recorded) and
`maxYear` is at least the reference year. -/
theorem c7_rolling_windows (ics : List UserIC)
    (acts : List ProfessionalActivity) :
    ((rolling_windows ics acts).map (fun w => w.year_to)
        = intRange (max (timeline_min_year ics acts + 5) (REFERENCE_YEAR - 2))
            (timeline_max_year ics acts + 3)) ∧
    (∀ w ∈ rolling_windows ics acts, w.year_from = w.year_to - 5) ∧
    (max (timeline_min_year ics acts + 5) (REFERENCE_YEAR - 2)
        ≤ timeline_max_year ics acts + 2 →
      (timeline_max_year ics acts + 2)
        ∈ (rolling_windows ics acts).map (fun w => w.year_to)) ∧
    REFERENCE_YEAR ≤ timeline_max_year ics acts ∧
    (((ics.filter fun u => truthyInt u.year).map (fun u => u.year.getD 0)
        ++ acts.map (fun a => a.year)) = [] →
      timeline_min_year ics acts = REFERENCE_YEAR) ∧
    (((ics.filter fun u => truthyInt u.year).map (fun u => u.year.getD 0)
        ++ acts.map (fun a => a.year)) ≠ [] →
      timeline_min_year ics acts
          ∈ ((ics.filter fun u => truthyInt u.year).map (fun u => u.year.getD 0)
            ++ acts.map (fun a => a.year)) ∧
        ∀ y ∈ ((ics.filter fun u => truthyInt u.year).map (fun u => u.year.getD 0)
            ++ acts.map (fun a => a.year)),
          timeline_min_year ics acts ≤ y) := by
  have hends : (rolling_windows ics acts).map (fun w => w.year_to)
      = intRange (max (timeline_min_year ics acts + 5) (REFERENCE_YEAR - 2))
          (timeline_max_year ics acts + 3) := by
    simp only [rolling_windows]
    rw [List.map_map]
    exact List.map_id' _
  refine ⟨hends, ?_, ?_, ?_, ?_, ?_⟩
  · intro w hw
    simp only [rolling_windows, List.mem_map] at hw
    obtain ⟨e, he, rfl⟩ := hw
    rfl
  · intro h
    rw [hends, mem_intRange]
    omega
  · simp only [timeline_max_year]
    exact le_max_right _ _
  · intro h
    simp [timeline_min_year, timeline_all_years, h, List.min?]
  · intro h
    have hne : timeline_all_years ics acts
        = (ics.filter fun u => truthyInt u.year).map (fun u => u.year.getD 0)
          ++ acts.map (fun a => a.year) := by
      simp [timeline_all_years, h]
    cases hl : ((ics.filter fun u => truthyInt u.year).map (fun u => u.year.getD 0)
        ++ acts.map (fun a => a.year)).min? with
    | none =>
      rw [List.min?_eq_none_iff] at hl
      exact absurd hl h
    | some m =>
      have hm := (int_min?_eq_some_iff _ m).mp hl
      have : timeline_min_year ics acts = m := by
        simp [timeline_min_year, hne, hl]
      rw [this]
      exact hm

/-- Witness for C7 at a concrete input (one PRJ contribution in 2019):
the minimum recorded year is a recorded year. -/
theorem c7_witness :
    timeline_min_year [ic_2019] []
      ∈ (([ic_2019].filter fun u => truthyInt u.year).map (fun u => u.year.getD 0)
        ++ ([] : List ProfessionalActivity).map (fun a => a.year)) :=
  ((c7_rolling_windows [ic_2019] []).2.2.2.2.2 (by decide)).1

lemma met2_eq (p t pr ir : Int) :
    (!(decide (p < pr) || decide (t < ir)))
      = (decide (p ≥ pr) && decide (t ≥ ir)) := by
  by_cases h1 : p < pr <;> by_cases h2 : t < ir
  · have g1 : ¬(p ≥ pr) := by omega
    simp [h1, h2, g1]
  · have g1 : ¬(p ≥ pr) := by omega
    simp [h1, h2, g1]
  · have g2 : ¬(t ≥ ir) := by omega
    simp [h1, h2, g2]
  · have g1 : p ≥ pr := by omega
    have g2 : t ≥ ir := by omega
    simp [h1, h2, g1, g2]

lemma met1_eq (ac ar : Int) : (!decide (ac < ar)) = decide (ac ≥ ar) := by
  by_cases h : ac < ar
  · have g : ¬(ac ≥ ar) := by omega
    simp [h, g]
  · have g : ac ≥ ar := by omega
    simp [h, g]

/-- Claim C10, counterexample: with an active grant whose type is named
"Programme Leader" but grants a full exemption (degree-anchored, expired:
degree 2000, `yearsAfterDegree = 5`, reference 2025) plus a partial grant
with `prj_reduction = 1`, an SP member with 0 PRJ and 5 total ICs is met
per `calculate_qualification_status` (the full type is skipped, so no
Programme-Leader flag: PRJ required 0) but NOT met per the overview
computation (which latches the flag from the name before the
full-exemption test: PRJ required 1). -/
theorem c10_counterexample :
    (calculate_qualification_status user_SP_pl_full contribs_5other []
        (some [grant_pl_full, grant_buyout]) (some 2025)).met? = some true ∧
    overview_met FacultyCategory.SP (prj_article_count contribs_5other)
        (total_ics_count contribs_5other) 0 [grant_pl_full, grant_buyout]
        (some 2000) 2025 = false := by decide

/-- Claim C10 (amended): for identical counts, identical active exemption
grants and the same reference year, the overview's inline met verdict
equals `requirements_met` of `calculate_qualification_status`, PROVIDED no
active grant's type is simultaneously named "Programme Leader" and a
full-exemption type (the two computations derive the Programme-Leader
flag differently for such grants) and the per-grant `prj_reduction`
magnitudes are non-negative (the data-model invariant). -/
theorem c10_amended (u : User) (c : List Contribution)
    (a : List ProfessionalActivity) (ex : List UserExemption) (r : Int)
    (cat : FacultyCategory) (hcat : u.faculty_category = some cat)
    (hnopl : ∀ e ∈ ex, ¬(e.exemption_type.name = "Programme Leader"
        ∧ e.exemption_type.grants_full_exemption = true))
    (hred : ∀ e ∈ ex, 0 ≤ e.exemption_type.prj_reduction) :
    (calculate_qualification_status u c a (some ex) (some r)).met?
      = some (overview_met cat (prj_article_count c) (total_ics_count c)
          ((a.length : Int)) ex u.degree_year r) := by
  obtain ⟨hsi, hsp, hsa⟩ := aggregate_eq_overview ex
  have hnn := aggregate_prj_nonneg ex hred
  rw [hsp] at hnn
  cases hf : find_full_exemption u ex r with
  | some v =>
    have hscan : (overview_scan ex u.degree_year r).1 = true := by
      rw [overview_scan_fst u ex r, hf]
      rfl
    obtain ⟨ft, reason⟩ := v
    simp [calculate_qualification_status, hcat, hf, category_requirements,
      QualStatus.met?, overview_met, hscan]
  | none =>
    have hscan : (overview_scan ex u.degree_year r).1 = false := by
      rw [overview_scan_fst u ex r, hf]
      rfl
    have hpl : (overview_scan ex u.degree_year r).2
        = (aggregate_reductions ex).2.2.2.2 := by
      rw [overview_scan_snd ex u.degree_year r hscan, aggregate_pl_any,
        pl_any_congr ex hnopl]
    cases cat with
    | SA =>
      simp only [calculate_qualification_status, hcat, hf, category_requirements,
        QualStatus.met?, overview_met, hscan, hpl, hsi, hsp, hsa,
        total_ics_count, Option.getD_some, Option.some.injEq]
      rw [if_neg (show ¬(false = true) by simp)]
      exact met2_eq _ _ _ _
    | PA =>
      simp only [calculate_qualification_status, hcat, hf, category_requirements,
        QualStatus.met?, overview_met, hscan, hpl, hsi, hsp, hsa,
        total_ics_count, Option.getD_some, Option.some.injEq]
      rw [if_neg (show ¬(false = true) by simp)]
      exact met1_eq _ _
    | SP =>
      have hmax : max 1 (1 - overview_prj_reduction ex) = 1 :=
        max_eq_left (by omega)
      simp only [calculate_qualification_status, hcat, hf, category_requirements,
        QualStatus.met?, overview_met, hscan, hpl, hsi, hsp, hsa,
        total_ics_count, hmax, Option.getD_some, Option.some.injEq]
      rw [if_neg (show ¬(false = true) by simp)]
      exact met2_eq _ _ _ _
    | IP =>
      simp only [calculate_qualification_status, hcat, hf, category_requirements,
        QualStatus.met?, overview_met, hscan, hpl, hsi, hsp, hsa,
        total_ics_count, Option.getD_some, Option.some.injEq]
      rw [if_neg (show ¬(false = true) by simp)]
      exact met1_eq _ _
    | Other =>
      simp [calculate_qualification_status, hcat, hf, category_requirements,
        QualStatus.met?, overview_met, hscan, hpl]

/-- Witness for C10 (amended): SA user, 2 PRJ + 3 other ICs, one partial
buyout grant, reference year 2025. -/
theorem c10_witness :
    (calculate_qualification_status user_SA_plain contribs_2prj_3other []
        (some [grant_buyout]) (some 2025)).met?
      = some (overview_met FacultyCategory.SA
          (prj_article_count contribs_2prj_3other)
          (total_ics_count contribs_2prj_3other)
          ((([] : List ProfessionalActivity).length : Int))
          [grant_buyout] user_SA_plain.degree_year 2025) :=
  c10_amended user_SA_plain contribs_2prj_3other [] [grant_buyout] 2025
    FacultyCategory.SA rfl (by decide) (by decide)

end AACSB
